import Mathlib

/-!
Verification of the g3nd demo files: the geometry-shader demo
(`shader_geometry.go`) and the skybox demo.  Each demo is a plugin with an
initialize hook (run once) and a `Render` hook (run per frame) driven by a
host 3D engine.  We embed the demo state, the engine calls they make (as an
event trace), and the GUI checkbox handlers they install, and prove the
claimed properties.
-/

namespace G3nd

/-! ## Shader source constants, verbatim from `shader_geometry.go` -/

def sourceGSDemoVertex : String :=
  "\n#version \x7b\x7b.Version\x7d\x7d\n\n\x7b\x7btemplate \"attributes\" .\x7d\x7d\n\n// Outputs for geometry shader\nout vec3 vnormal;\n\nvoid main() \x7b\n\n\tgl_Position = vec4(VertexPosition, 1.0);\n  \tvnormal = VertexNormal;\n\x7d\n\n"

def sourceGSDemoGeometry : String :=
  "\n#version \x7b\x7b.Version\x7d\x7d\n\nlayout (triangles) in;\nlayout (line_strip, max_vertices = 12) out;\n\n// Model uniforms\nuniform mat4 MVP;\n\n// Inputs from Vertex Shader\nin vec3 vnormal[];\n\n// Inputs uniforms\nuniform int ShowWireframe;\nuniform int ShowVnormal;\nuniform int ShowFnormal;\n\n// Colors\nconst vec4 colorWire    = vec4(1, 1, 0, 1);\nconst vec4 colorVnormal = vec4(1, 0, 0, 1);\nconst vec4 colorFnormal = vec4(0, 0, 1, 1);\n\n// Output color to fragment shader\nout vec4 vertex_color;\n\nvoid main() \x7b\n\n\t// Emits triangle\x27s vertices as lines to show wireframe\n\tif (ShowWireframe != 0) \x7b\n\t\tfor (int n = 0; n < gl_in.length(); n++) \x7b\n\t\t\t// Vertex position\n\t\t\tgl_Position = MVP * gl_in[n].gl_Position;\n\t\t\tvertex_color = colorWire;\n\t\t\tEmitVertex();\n\t\t\x7d\n\t\t// Emit first triangle vertex to close the last line strip.\n\t\tgl_Position = MVP * gl_in[0].gl_Position;\n\t\tvertex_color = colorWire;\n\t\tEmitVertex();\n\t\tEndPrimitive();\n\t\x7d\n\n\t// Emits lines representing the vertices normals\n\tif (ShowVnormal != 0) \x7b\n\t\tfor (int i = 0; i < gl_in.length(); i++) \x7b\n\n\t\t\tvec3 position = gl_in[i].gl_Position.xyz;\n\t\t\tvec3 normal = vnormal[i];\n\t\t\t\n\t\t\tgl_Position = MVP * vec4(position, 1.0);\n\t\t\tvertex_color = colorVnormal;\n\t\t\tEmitVertex();\n\t\t\t\n\t\t\tgl_Position = MVP * vec4(position + normal * 0.5, 1.0);\n\t\t\tvertex_color = colorVnormal;\n\t\t\tEmitVertex();\n\t\t\t\n\t\t\tEndPrimitive();\n\t\t\x7d\n\t\x7d\n\n\t// Emits one line representing the face normal\n\tif (ShowFnormal != 0) \x7b\n\t\tvec3 p0 = gl_in[0].gl_Position.xyz;\n\t\tvec3 p1 = gl_in[1].gl_Position.xyz;\n\t\tvec3 p2 = gl_in[2].gl_Position.xyz;\n\t  \n\t\tvec3 v0 = p0 - p1;\n\t\tvec3 v1 = p2 - p1;\n\t\tvec3 faceN = normalize(cross(v1, v0));\n\n\t\t// Center of the triangle\n\t\tvec3 center = (p0 + p1 + p2) / 3.0;\n\t  \n\t\tgl_Position = MVP * vec4(center, 1.0);\n\t\tvertex_color = colorFnormal;\n\t\tEmitVertex();\n\t  \n\t\tgl_Position = MVP * vec4(center + faceN * 0.5, 1.0);\n\t\tvertex_color = colorFnormal;\n\t\tEmitVertex();\n\t\tEndPrimitive();\n\t\x7d\n\x7d\n\n"

def sourceGSDemoFrag : String :=
  "\n#version \x7b\x7b.Version\x7d\x7d\n\nin vec4 vertex_color;\nout vec4 Out_Color;\n\nvoid main() \x7b\n\tOut_Color = vertex_color;\n\x7d\n\n"

/-! ## Engine-call events

Each demo's initialize hook calls into the host engine; we record those
calls as a trace of events. -/

inductive Event where
  | guiAdd (desc : String)
  | sceneAdd (desc : String)
  | addShader (name source : String)
  | addProgram (name vertexName fragName geomName : String)
  | logFatal (msg : String)
  | addCheckBox (label : String) (value : Bool)
deriving DecidableEq, Repr

def Event.isAddShader : Event → Bool
  | .addShader _ _ => true
  | _ => false

def Event.isAddProgram : Event → Bool
  | .addProgram _ _ _ _ => true
  | _ => false

def Event.isFatal : Event → Bool
  | .logFatal _ => true
  | _ => false

/-! ## Meshes

A `graphic.Mesh` as the demos use it: a position (set once via
`SetPosition`) and three rotation angles mutated by `AddRotationX/Y/Z`.
Angles are modelled as rationals. -/

structure Mesh where
  position : ℚ × ℚ × ℚ
  rotX : ℚ
  rotY : ℚ
  rotZ : ℚ
deriving DecidableEq, Repr

def Mesh.addRotationX (m : Mesh) (a : ℚ) : Mesh := { m with rotX := m.rotX + a }

def Mesh.addRotationY (m : Mesh) (a : ℚ) : Mesh := { m with rotY := m.rotY + a }

def Mesh.addRotationZ (m : Mesh) (a : ℚ) : Mesh := { m with rotZ := m.rotZ + a }

def meshZero : Mesh := { position := (0, 0, 0), rotX := 0, rotY := 0, rotZ := 0 }

/-! ## The custom normals material of the geometry-shader demo

`NormalsMaterial` embeds the engine material (here: the shader name set by
`SetShader`) and three `Uniform1i` values.  The uniform values are Go
`int32`; the demo only ever stores 0 or 1 in them, so plain `Int` with no
wrap-around is a faithful model. -/

structure NormalsMaterial where
  shader : String
  ShowWireframe : Int
  ShowVnormal : Int
  ShowFnormal : Int
deriving DecidableEq, Repr

def newNormalsMaterial : NormalsMaterial :=
  { shader := "progGSDemo", ShowWireframe := 1, ShowVnormal := 1, ShowFnormal := 1 }

/-! ## The `ShaderGeometry` demo object

Fields mirror the Go struct (minus the stored context pointer); the Go
zero value registered by `init` is `shaderGeometryZero`. -/

structure ShaderGeometry where
  plane : Mesh
  box : Mesh
  sphere : Mesh
  showWireframe : Int
  showVnormal : Int
  showFnormal : Int
  rotate : Bool
deriving DecidableEq, Repr

def shaderGeometryZero : ShaderGeometry :=
  { plane := meshZero, box := meshZero, sphere := meshZero,
    showWireframe := 0, showVnormal := 0, showFnormal := 0, rotate := false }

/-- The host-supplied context: the per-frame delta time in seconds that the
host makes available to every demo, and whether the control panel is
present (`ctx.Control != nil`). -/
structure Context where
  frameDeltaSeconds : ℚ
  control : Bool
deriving DecidableEq, Repr

/-- The mutable state the checkbox handlers close over: the demo object `t`
and the shared material `mat`. -/
structure DemoState where
  t : ShaderGeometry
  mat : NormalsMaterial
deriving DecidableEq, Repr

/-! ## Checkbox `OnChange` handlers

The four closures subscribed in the initialize hook, as pure functions on
the state they capture.  Each mirrors its Go body exactly. -/

def rotateHandler (s : DemoState) : DemoState :=
  { s with t := { s.t with rotate := !s.t.rotate } }

def wireframeHandler (s : DemoState) : DemoState :=
  let v : Int := if s.t.showWireframe = 0 then 1 else 0
  { s with t := { s.t with showWireframe := v },
           mat := { s.mat with ShowWireframe := v } }

def vnormalHandler (s : DemoState) : DemoState :=
  let v : Int := if s.t.showVnormal = 0 then 1 else 0
  { s with t := { s.t with showVnormal := v },
           mat := { s.mat with ShowVnormal := v } }

def fnormalHandler (s : DemoState) : DemoState :=
  let v : Int := if s.t.showFnormal = 0 then 1 else 0
  { s with t := { s.t with showFnormal := v },
           mat := { s.mat with ShowFnormal := v } }

/-- The handlers registered by the initialize hook when the control panel
is present, in subscription order. -/
def handlerList : List (DemoState → DemoState) :=
  [rotateHandler, wireframeHandler, vnormalHandler, fnormalHandler]

/-! ## The geometry-shader demo's initialize hook

Returns the updated demo object, the shared material created by
`newNormalsMaterial`, the trace of engine calls, and the list of handlers
subscribed (empty when `ctx.Control == nil`, since the hook returns early
before the control section). -/

structure ShaderGeometryInitResult where
  state : ShaderGeometry
  mat : NormalsMaterial
  trace : List Event
  handlers : List (DemoState → DemoState)

def shaderGeometryInit (t : ShaderGeometry) (ctx : Context) : ShaderGeometryInitResult :=
  let mat := newNormalsMaterial
  let baseTrace : List Event :=
    [ Event.guiAdd "Label:Wireframe, vertex and face normals generated by Geometry Shader",
      Event.sceneAdd "DirectionalLight(1,1,1;0.6)@(0,0,100)",
      Event.sceneAdd "AxisHelper(1)",
      Event.addShader "shaderGSDemoVertex" sourceGSDemoVertex,
      Event.addShader "shaderGSDemoGeometry" sourceGSDemoGeometry,
      Event.addShader "shaderGSDemoFrag" sourceGSDemoFrag,
      Event.addProgram "progGSDemo" "shaderGSDemoVertex" "shaderGSDemoFrag" "shaderGSDemoGeometry",
      Event.sceneAdd "plane", Event.sceneAdd "box", Event.sceneAdd "sphere" ]
  let t1 : ShaderGeometry :=
    { t with
      plane := { position := (-2.2, 0, 0), rotX := 0, rotY := 0, rotZ := 0 },
      box := { position := (0, 0, 0), rotX := 0, rotY := 0, rotZ := 0 },
      sphere := { position := (2.2, 0, 0), rotX := 0, rotY := 0, rotZ := 0 } }
  if ctx.control = false then
    { state := t1, mat := mat, trace := baseTrace, handlers := [] }
  else
    { state := { t1 with showWireframe := 1, showVnormal := 1, showFnormal := 1, rotate := true },
      mat := mat,
      trace := baseTrace ++
        [ Event.addCheckBox "Rotate" true,
          Event.addCheckBox "Wireframe" true,
          Event.addCheckBox "Vertex normals" true,
          Event.addCheckBox "Face normals" true ],
      handlers := handlerList }

/-! ## The geometry-shader demo's per-frame hook

`Render` receives the host context but reads nothing from it: when
`rotate` is set it adds the literal constants 0.01, 0.01 and 0.005 to the
three mesh rotations. -/

def shaderGeometryRender (t : ShaderGeometry) (_ctx : Context) : ShaderGeometry :=
  if t.rotate then
    { t with
      plane := t.plane.addRotationX 0.01,
      box := t.box.addRotationY 0.01,
      sphere := t.sphere.addRotationZ 0.005 }
  else t
/-! ## The skybox demo

The skybox demo has no state of its own (empty Go struct).  Its
initialize hook loads six face textures; loading is modelled by a host
function `load` from file path to either an error message or a texture.
`a.Log().Fatal` aborts the program, so a failed load makes the whole hook
return `Except.error` with the fatal message and nothing later runs. -/

inductive Side where
  | front
  | back
  | double
deriving DecidableEq, Repr

structure StandardMaterial where
  color : ℚ × ℚ × ℚ
  textures : List String
  side : Side
deriving DecidableEq, Repr

structure BoxGeom where
  width : ℚ
  height : ℚ
  length : ℚ
  widthSegments : Nat
  heightSegments : Nat
  lengthSegments : Nat
deriving DecidableEq, Repr

structure SkyboxMesh where
  geom : BoxGeom
  groupMaterials : List (StandardMaterial × Nat)
deriving DecidableEq, Repr

structure SkyboxScene where
  sceneAdds : List String
  mesh : SkyboxMesh
deriving DecidableEq, Repr

inductive Skybox where
  | mk
deriving DecidableEq, Repr

structure App where
  dirData : String
deriving DecidableEq, Repr

def skyboxTextures : List String :=
  [ "sanfrancisco/posx.jpg",
    "sanfrancisco/negx.jpg",
    "sanfrancisco/posy.jpg",
    "sanfrancisco/negy.jpg",
    "sanfrancisco/posz.jpg",
    "sanfrancisco/negz.jpg" ]

/-- The face loop of the skybox initialize hook: for face `i`, load the
texture, and on success build a fresh standard material (white color, the
loaded texture, back side) attached to face group `i`.  The first failed
load aborts with the fatal log message. -/
def skyboxBuildFaces (load : String → Except String String) (dir : String) :
    List String → Nat → Except String (List (StandardMaterial × Nat))
  | [], _ => Except.ok []
  | p :: rest, i =>
    match load (dir ++ "/images/" ++ p) with
    | Except.error err => Except.error ("Error loading texture: " ++ err)
    | Except.ok tex =>
      match skyboxBuildFaces load dir rest (i + 1) with
      | Except.error e => Except.error e
      | Except.ok ms =>
        Except.ok (({ color := (1, 1, 1), textures := [tex], side := Side.back }, i) :: ms)

def skyboxInit (load : String → Except String String) (a : App) :
    Except String SkyboxScene :=
  match skyboxBuildFaces load a.dirData skyboxTextures 0 with
  | Except.error e => Except.error e
  | Except.ok ms =>
    Except.ok
      { sceneAdds := ["AxisHelper(2)", "skybox"],
        mesh :=
          { geom :=
              { width := 50, height := 50, length := 50,
                widthSegments := 2, heightSegments := 2, lengthSegments := 2 },
            groupMaterials := ms } }

/-- The skybox per-frame hook has an empty body: it returns everything it
can reach unchanged. -/
def skyboxRender (t : Skybox) (a : App) (scene : SkyboxScene) :
    Skybox × App × SkyboxScene := (t, a, scene)

/-! ## Registration

Each file's `init` function adds exactly one entry to the host-owned demo
map.  The map is modelled as a function from keys to registered objects. -/

inductive DemoObject where
  | shaderGeometryDemo (t : ShaderGeometry)
  | skyboxDemo (t : Skybox)
deriving DecidableEq, Repr

def shaderGeometryRegister (m : String → Option DemoObject) :
    String → Option DemoObject :=
  fun k => if k = "shader.geometry"
    then some (DemoObject.shaderGeometryDemo shaderGeometryZero)
    else m k

def skyboxRegister (m : String → Option DemoObject) :
    String → Option DemoObject :=
  fun k => if k = "skybox.sanfrancisco"
    then some (DemoObject.skyboxDemo Skybox.mk)
    else m k

/-! ## Handler sequences and reachable states -/

def applySeq : List (DemoState → DemoState) → DemoState → DemoState
  | [], s => s
  | h :: rest, s => applySeq rest (h s)

/-- The demo/material state right after the initialize hook, seen by the
handlers. -/
def initDemoState (ctx : Context) : DemoState :=
  { t := (shaderGeometryInit shaderGeometryZero ctx).state,
    mat := (shaderGeometryInit shaderGeometryZero ctx).mat }

/-- A state reachable from `start` by some sequence of registered checkbox
handler invocations. -/
def Reachable (start s : DemoState) : Prop :=
  ∃ seq : List (DemoState → DemoState),
    (∀ h ∈ seq, h ∈ handlerList) ∧ applySeq seq start = s

/-- The toggle invariant: every show field is 0 or 1 and agrees with the
value last written to the corresponding material uniform. -/
def ToggleInv (s : DemoState) : Prop :=
  (s.t.showWireframe = 0 ∨ s.t.showWireframe = 1) ∧
  (s.t.showVnormal = 0 ∨ s.t.showVnormal = 1) ∧
  (s.t.showFnormal = 0 ∨ s.t.showFnormal = 1) ∧
  s.mat.ShowWireframe = s.t.showWireframe ∧
  s.mat.ShowVnormal = s.t.showVnormal ∧
  s.mat.ShowFnormal = s.t.showFnormal
/-- Whether an `Except` result is an error (the load failed). -/
def exceptIsErr {ε α : Type} : Except ε α → Bool
  | Except.error _ => true
  | Except.ok _ => false

/-! ## Concrete inputs used to exercise the theorems -/

def ctxA : Context := { frameDeltaSeconds := 0, control := true }

def demoStateA : DemoState := initDemoState ctxA

def stateA : ShaderGeometry := (shaderGeometryInit shaderGeometryZero ctxA).state

def loadA : String → Except String String := fun p => Except.ok p

def appA : App := { dirData := "data" }

def matFaceA (tex : String) : StandardMaterial :=
  { color := (1, 1, 1), textures := [tex], side := Side.back }

def sceneA : SkyboxScene :=
  { sceneAdds := ["AxisHelper(2)", "skybox"],
    mesh :=
      { geom :=
          { width := 50, height := 50, length := 50,
            widthSegments := 2, heightSegments := 2, lengthSegments := 2 },
        groupMaterials :=
          [ (matFaceA "data/images/sanfrancisco/posx.jpg", 0),
            (matFaceA "data/images/sanfrancisco/negx.jpg", 1),
            (matFaceA "data/images/sanfrancisco/posy.jpg", 2),
            (matFaceA "data/images/sanfrancisco/negy.jpg", 3),
            (matFaceA "data/images/sanfrancisco/posz.jpg", 4),
            (matFaceA "data/images/sanfrancisco/negz.jpg", 5) ] } }

/-! ## Claim theorems -/

/-- Claim C9: the skybox per-frame hook is a no-op: for every demo, app
and scene state, calling it changes nothing. -/
theorem skyboxRender_noop (t : Skybox) (a : App) (scene : SkyboxScene) :
    skyboxRender t a scene = (t, a, scene) := rfl

/-- Claim C3: each file's `init` registers exactly one demo object under its
single dotted key and changes no other key of the host-owned map. -/
theorem register_single_key (m : String → Option DemoObject) (k : String) :
    shaderGeometryRegister m "shader.geometry"
        = some (DemoObject.shaderGeometryDemo shaderGeometryZero) ∧
    (k ≠ "shader.geometry" → shaderGeometryRegister m k = m k) ∧
    skyboxRegister m "skybox.sanfrancisco" = some (DemoObject.skyboxDemo Skybox.mk) ∧
    (k ≠ "skybox.sanfrancisco" → skyboxRegister m k = m k) := by
  refine ⟨rfl, fun hk => ?_, rfl, fun hk => ?_⟩ <;>
    simp [shaderGeometryRegister, skyboxRegister, hk]

/-- Witness for C3 at a concrete map and key. -/
theorem register_single_key_witness :
    shaderGeometryRegister (fun _ => none) "shader.geometry"
        = some (DemoObject.shaderGeometryDemo shaderGeometryZero) ∧
    shaderGeometryRegister (fun _ => none) "geometry.box" = none ∧
    skyboxRegister (fun _ => none) "skybox.sanfrancisco"
        = some (DemoObject.skyboxDemo Skybox.mk) ∧
    skyboxRegister (fun _ => none) "geometry.box" = none := by
  obtain ⟨h1, h2, h3, h4⟩ := register_single_key (fun _ => none) "geometry.box"
  exact ⟨h1, h2 (by decide), h3, h4 (by decide)⟩

/-- Claim C4: the geometry-shader demo's initialize hook registers exactly
three named shader stages, passing each source constant verbatim, and one
program referencing those three stages. -/
theorem shader_registration (t : ShaderGeometry) (ctx : Context) :
    (shaderGeometryInit t ctx).trace.filter Event.isAddShader =
      [ Event.addShader "shaderGSDemoVertex" sourceGSDemoVertex,
        Event.addShader "shaderGSDemoGeometry" sourceGSDemoGeometry,
        Event.addShader "shaderGSDemoFrag" sourceGSDemoFrag ] ∧
    (shaderGeometryInit t ctx).trace.filter Event.isAddProgram =
      [ Event.addProgram "progGSDemo"
          "shaderGSDemoVertex" "shaderGSDemoFrag" "shaderGSDemoGeometry" ] := by
  obtain ⟨d, c⟩ := ctx
  cases c <;> exact ⟨rfl, rfl⟩
/-- Claim C1 counterexample: starting from the post-initialize state with
rotate set, two frames whose host-supplied delta-times differ produce
identical state changes, and the plane increment is the fixed constant
0.01; the rotation increments are therefore not a function of the frame's
delta-time. -/
theorem render_delta_independent_counterexample :
    stateA.rotate = true ∧
    (1 : ℚ) / 100 ≠ 1 / 2 ∧
    shaderGeometryRender stateA { frameDeltaSeconds := 1 / 100, control := true } =
      shaderGeometryRender stateA { frameDeltaSeconds := 1 / 2, control := true } ∧
    (shaderGeometryRender stateA { frameDeltaSeconds := 1 / 2, control := true }).plane.rotX
      = stateA.plane.rotX + 0.01 := by
  refine ⟨rfl, by norm_num, rfl, rfl⟩

/-- Claim C1 amended: the per-frame mutations of the geometry-shader demo
are fixed constant rotation increments (0.01, 0.01, 0.005 on plane, box
and sphere) applied when rotate is set, identical for every host context
and hence independent of the host-supplied delta-time. -/
theorem render_fixed_increments (t : ShaderGeometry) (ctx ctx2 : Context)
    (h : t.rotate = true) :
    shaderGeometryRender t ctx =
      { t with
        plane := { t.plane with rotX := t.plane.rotX + 0.01 },
        box := { t.box with rotY := t.box.rotY + 0.01 },
        sphere := { t.sphere with rotZ := t.sphere.rotZ + 0.005 } } ∧
    shaderGeometryRender t ctx = shaderGeometryRender t ctx2 := by
  constructor <;>
    simp [shaderGeometryRender, h, Mesh.addRotationX, Mesh.addRotationY, Mesh.addRotationZ]

/-- Witness for the amended C1 at a concrete state and contexts. -/
theorem render_fixed_increments_witness :
    shaderGeometryRender stateA { frameDeltaSeconds := 3, control := true } =
      { stateA with
        plane := { stateA.plane with rotX := stateA.plane.rotX + 0.01 },
        box := { stateA.box with rotY := stateA.box.rotY + 0.01 },
        sphere := { stateA.sphere with rotZ := stateA.sphere.rotZ + 0.005 } } :=
  (render_fixed_increments stateA
    { frameDeltaSeconds := 3, control := true }
    { frameDeltaSeconds := 7, control := true } rfl).1

/-- Claim C8: with no control panel the initialize hook returns early, so
rotate stays false, the show fields stay at the Go zero value 0, no
handlers are subscribed, the material uniforms keep their initial value 1,
and every subsequent Render call leaves the demo state unchanged. -/
theorem no_control_render_noop (ctx : Context) (h : ctx.control = false) :
    (shaderGeometryInit shaderGeometryZero ctx).state.rotate = false ∧
    (shaderGeometryInit shaderGeometryZero ctx).state.showWireframe = 0 ∧
    (shaderGeometryInit shaderGeometryZero ctx).state.showVnormal = 0 ∧
    (shaderGeometryInit shaderGeometryZero ctx).state.showFnormal = 0 ∧
    (shaderGeometryInit shaderGeometryZero ctx).handlers = [] ∧
    (shaderGeometryInit shaderGeometryZero ctx).mat.ShowWireframe = 1 ∧
    (shaderGeometryInit shaderGeometryZero ctx).mat.ShowVnormal = 1 ∧
    (shaderGeometryInit shaderGeometryZero ctx).mat.ShowFnormal = 1 ∧
    ∀ ctx2 : Context,
      shaderGeometryRender (shaderGeometryInit shaderGeometryZero ctx).state ctx2 =
        (shaderGeometryInit shaderGeometryZero ctx).state := by
  obtain ⟨d, c⟩ := ctx
  simp only [Context.control] at h
  subst h
  refine ⟨rfl, rfl, rfl, rfl, rfl, rfl, rfl, rfl, fun ctx2 => rfl⟩

/-- Witness for C8 at a concrete control-free context. -/
theorem no_control_render_noop_witness :
    (shaderGeometryInit shaderGeometryZero
        { frameDeltaSeconds := 1, control := false }).state.rotate = false ∧
    shaderGeometryRender
        (shaderGeometryInit shaderGeometryZero
          { frameDeltaSeconds := 1, control := false }).state
        { frameDeltaSeconds := 5, control := true } =
      (shaderGeometryInit shaderGeometryZero
        { frameDeltaSeconds := 1, control := false }).state := by
  obtain ⟨h1, _, _, _, _, _, _, _, h9⟩ :=
    no_control_render_noop { frameDeltaSeconds := 1, control := false } rfl
  exact ⟨h1, h9 _⟩
/-- Claim C6: each show checkbox handler flips its field between 0 and 1
and writes the new value into the corresponding material uniform; the
rotate handler negates the flag and writes no uniform. -/
theorem checkbox_handlers_flip (s : DemoState)
    (hw : s.t.showWireframe = 0 ∨ s.t.showWireframe = 1)
    (hv : s.t.showVnormal = 0 ∨ s.t.showVnormal = 1)
    (hf : s.t.showFnormal = 0 ∨ s.t.showFnormal = 1) :
    (wireframeHandler s).t.showWireframe = 1 - s.t.showWireframe ∧
    (wireframeHandler s).mat.ShowWireframe = (wireframeHandler s).t.showWireframe ∧
    (vnormalHandler s).t.showVnormal = 1 - s.t.showVnormal ∧
    (vnormalHandler s).mat.ShowVnormal = (vnormalHandler s).t.showVnormal ∧
    (fnormalHandler s).t.showFnormal = 1 - s.t.showFnormal ∧
    (fnormalHandler s).mat.ShowFnormal = (fnormalHandler s).t.showFnormal ∧
    (rotateHandler s).t.rotate = !s.t.rotate ∧
    (rotateHandler s).mat = s.mat := by
  rcases hw with hw | hw <;> rcases hv with hv | hv <;> rcases hf with hf | hf <;>
    simp [wireframeHandler, vnormalHandler, fnormalHandler, rotateHandler, hw, hv, hf]

/-- Witness for C6 at the concrete post-initialize state. -/
theorem checkbox_handlers_flip_witness :
    (wireframeHandler demoStateA).t.showWireframe = 1 - demoStateA.t.showWireframe ∧
    (wireframeHandler demoStateA).mat.ShowWireframe
      = (wireframeHandler demoStateA).t.showWireframe ∧
    (vnormalHandler demoStateA).t.showVnormal = 1 - demoStateA.t.showVnormal ∧
    (vnormalHandler demoStateA).mat.ShowVnormal
      = (vnormalHandler demoStateA).t.showVnormal ∧
    (fnormalHandler demoStateA).t.showFnormal = 1 - demoStateA.t.showFnormal ∧
    (fnormalHandler demoStateA).mat.ShowFnormal
      = (fnormalHandler demoStateA).t.showFnormal ∧
    (rotateHandler demoStateA).t.rotate = !demoStateA.t.rotate ∧
    (rotateHandler demoStateA).mat = demoStateA.mat :=
  checkbox_handlers_flip demoStateA (Or.inr rfl) (Or.inr rfl) (Or.inr rfl)
/-- The skybox face loop errors exactly when some load in the face list
errors. -/
theorem skyboxBuildFaces_err (load : String → Except String String)
    (dir : String) (ps : List String) (i : Nat) :
    exceptIsErr (skyboxBuildFaces load dir ps i) =
      ps.any (fun p => exceptIsErr (load (dir ++ "/images/" ++ p))) := by
  induction ps generalizing i with
  | nil => rfl
  | cons p rest ih =>
    rw [List.any_cons]
    unfold skyboxBuildFaces
    cases hl : load (dir ++ "/images/" ++ p) with
    | error e => rfl
    | ok tex =>
      have h2 : exceptIsErr (Except.ok tex : Except String String) = false := rfl
      rw [h2, Bool.false_or, ← ih (i + 1)]
      cases hr : skyboxBuildFaces load dir rest (i + 1) <;> rfl

/-- Claim C2: the skybox initialize hook ends in the fatal log-and-abort
exactly when one of the six face texture loads returns an error, and the
geometry-shader demo performs no fatal call (its trace has no fatal
event) whatever the context. -/
theorem only_skybox_fatal (load : String → Except String String) (a : App)
    (t : ShaderGeometry) (ctx : Context) :
    (exceptIsErr (skyboxInit load a) =
      skyboxTextures.any (fun p => exceptIsErr (load (a.dirData ++ "/images/" ++ p)))) ∧
    (∀ e ∈ (shaderGeometryInit t ctx).trace, e.isFatal = false) := by
  constructor
  · rw [← skyboxBuildFaces_err load a.dirData skyboxTextures 0]
    unfold skyboxInit
    cases hb : skyboxBuildFaces load a.dirData skyboxTextures 0 <;> rfl
  · obtain ⟨d, c⟩ := ctx
    have hall : ((shaderGeometryInit t { frameDeltaSeconds := d, control := c }).trace.all
        fun e => !e.isFatal) = true := by cases c <;> rfl
    intro e he
    have := List.all_eq_true.mp hall e he
    simpa using this
/-- Characterization of a successful skybox face loop: one material per
face, in order, each carrying the texture loaded from its file and the
back side, attached to consecutive group indices starting at `i`. -/
theorem skyboxBuildFaces_ok (load : String → Except String String) (dir : String)
    (ps : List String) (i : Nat) (ms : List (StandardMaterial × Nat))
    (h : skyboxBuildFaces load dir ps i = Except.ok ms) :
    ms.length = ps.length ∧
    ∀ j p, ps.get? j = some p →
      ∃ tex, load (dir ++ "/images/" ++ p) = Except.ok tex ∧
        ms.get? j = some
          ({ color := (1, 1, 1), textures := [tex], side := Side.back }, i + j) := by
  induction ps generalizing i ms with
  | nil =>
    cases h
    exact ⟨rfl, fun j p hp => by cases hp⟩
  | cons p rest ih =>
    unfold skyboxBuildFaces at h
    cases hl : load (dir ++ "/images/" ++ p) with
    | error e => rw [hl] at h; cases h
    | ok tex =>
      rw [hl] at h
      cases hr : skyboxBuildFaces load dir rest (i + 1) with
      | error e => rw [hr] at h; cases h
      | ok ms' =>
        rw [hr] at h
        cases h
        obtain ⟨hlen, hidx⟩ := ih (i + 1) ms' hr
        refine ⟨by simp [hlen], fun j q hq => ?_⟩
        cases j with
        | zero =>
          cases hq
          exact ⟨tex, hl, by simp⟩
        | succ j' =>
          obtain ⟨tex', hload, hms⟩ := hidx j' q hq
          refine ⟨tex', hload, ?_⟩
          simpa [Nat.add_assoc, Nat.add_comm 1 j'] using hms

/-- Claim C5: on success the skybox initialize hook builds a single
50×50×50 box mesh with exactly six face-group materials, the i-th carrying
the texture loaded from the i-th fixed file name and set to render its
back side, attached to face group i, and adds the axis helper and the mesh
to the scene. -/
theorem skybox_scene (load : String → Except String String) (a : App)
    (scene : SkyboxScene) (h : skyboxInit load a = Except.ok scene) :
    scene.sceneAdds = ["AxisHelper(2)", "skybox"] ∧
    scene.mesh.geom = { width := 50, height := 50, length := 50,
                        widthSegments := 2, heightSegments := 2, lengthSegments := 2 } ∧
    scene.mesh.groupMaterials.length = 6 ∧
    ∀ j p, skyboxTextures.get? j = some p →
      ∃ tex, load (a.dirData ++ "/images/" ++ p) = Except.ok tex ∧
        scene.mesh.groupMaterials.get? j = some
          ({ color := (1, 1, 1), textures := [tex], side := Side.back }, j) := by
  unfold skyboxInit at h
  cases hb : skyboxBuildFaces load a.dirData skyboxTextures 0 with
  | error e => rw [hb] at h; cases h
  | ok ms =>
    rw [hb] at h
    cases h
    obtain ⟨hlen, hidx⟩ := skyboxBuildFaces_ok load a.dirData skyboxTextures 0 ms hb
    refine ⟨rfl, rfl, by simpa using hlen, fun j p hp => ?_⟩
    obtain ⟨tex, hload, hms⟩ := hidx j p hp
    exact ⟨tex, hload, by simpa using hms⟩

/-- Witness for C5 at a concrete always-succeeding loader. -/
theorem skybox_scene_witness :
    sceneA.sceneAdds = ["AxisHelper(2)", "skybox"] ∧
    sceneA.mesh.groupMaterials.length = 6 ∧
    sceneA.mesh.groupMaterials.get? 0 = some
      ({ color := (1, 1, 1), textures := ["data/images/sanfrancisco/posx.jpg"],
         side := Side.back }, 0) := by
  obtain ⟨h1, _, h3, h4⟩ := skybox_scene loadA appA sceneA rfl
  obtain ⟨tex, hload, hms⟩ := h4 0 "sanfrancisco/posx.jpg" rfl
  cases hload
  exact ⟨h1, h3, hms⟩
/-- Every registered handler preserves the toggle invariant. -/
theorem toggleInv_preserved (h : DemoState → DemoState) (hh : h ∈ handlerList)
    (s : DemoState) (hs : ToggleInv s) : ToggleInv (h s) := by
  obtain ⟨hw, hv, hf, mw, mv, mf⟩ := hs
  simp only [handlerList, List.mem_cons, List.not_mem_nil, or_false] at hh
  rcases hh with rfl | rfl | rfl | rfl
  · exact ⟨hw, hv, hf, mw, mv, mf⟩
  · refine ⟨?_, hv, hf, rfl, mv, mf⟩
    by_cases h0 : s.t.showWireframe = 0 <;> simp [wireframeHandler, h0]
  · refine ⟨hw, ?_, hf, mw, rfl, mf⟩
    by_cases h0 : s.t.showVnormal = 0 <;> simp [vnormalHandler, h0]
  · refine ⟨hw, hv, ?_, mw, mv, rfl⟩
    by_cases h0 : s.t.showFnormal = 0 <;> simp [fnormalHandler, h0]

/-- On states satisfying the toggle invariant every registered handler is
an involution. -/
theorem handler_involution (h : DemoState → DemoState) (hh : h ∈ handlerList)
    (s : DemoState) (hs : ToggleInv s) : h (h s) = s := by
  obtain ⟨⟨pl, bx, sp, w, v, f, r⟩, ⟨sh, aw, av, af⟩⟩ := s
  obtain ⟨hw, hv, hf, mw, mv, mf⟩ := hs
  simp only [handlerList, List.mem_cons, List.not_mem_nil, or_false] at hh
  simp only at hw hv hf mw mv mf
  subst mw mv mf
  rcases hh with rfl | rfl | rfl | rfl
  · simp [rotateHandler]
  · rcases hw with rfl | rfl <;> simp [wireframeHandler]
  · rcases hv with rfl | rfl <;> simp [vnormalHandler]
  · rcases hf with rfl | rfl <;> simp [fnormalHandler]

/-- Handler sequences preserve the toggle invariant. -/
theorem applySeq_inv (seq : List (DemoState → DemoState)) :
    ∀ start : DemoState, (∀ h ∈ seq, h ∈ handlerList) → ToggleInv start →
      ToggleInv (applySeq seq start) := by
  induction seq with
  | nil => exact fun start _ h0 => h0
  | cons h rest ih =>
    intro start hseq h0
    exact ih (h start)
      (fun g hg => hseq g (List.mem_cons_of_mem h hg))
      (toggleInv_preserved h (hseq h (List.mem_cons_self h rest)) start h0)

/-- An even number of invocations of one handler restores a state
satisfying the toggle invariant. -/
theorem handler_iterate_even (h : DemoState → DemoState) (hh : h ∈ handlerList)
    (s : DemoState) (hs : ToggleInv s) : ∀ n, h^[2 * n] s = s := by
  intro n
  induction n with
  | zero => rfl
  | succ k ih =>
    have h2 : 2 * (k + 1) = 2 * k + 1 + 1 := by ring
    rw [h2, Function.iterate_succ_apply, Function.iterate_succ_apply,
      handler_involution h hh s hs, ih]
/-- Claim C7: after initialization with a control panel present, along any
sequence of checkbox handler invocations every show field is exactly 0 or
1 and equals the value last written to its material uniform, and an even
number of invocations of any one handler restores the state. -/
theorem toggle_state_invariant (ctx : Context) (hc : ctx.control = true)
    (s : DemoState) (hs : Reachable (initDemoState ctx) s) :
    ToggleInv s ∧ ∀ h ∈ handlerList, ∀ n : Nat, h^[2 * n] s = s := by
  have h0 : ToggleInv (initDemoState ctx) := by
    obtain ⟨d, c⟩ := ctx
    simp only [Context.control] at hc
    subst hc
    exact ⟨Or.inr rfl, Or.inr rfl, Or.inr rfl, rfl, rfl, rfl⟩
  obtain ⟨seq, hseq, rfl⟩ := hs
  have hi := applySeq_inv seq (initDemoState ctx) hseq h0
  exact ⟨hi, fun h hh n => handler_iterate_even h hh _ hi n⟩

/-- Witness for C7: the initial state itself is reachable, satisfies the
invariant, and two rotate-handler invocations restore it. -/
theorem toggle_state_invariant_witness :
    ToggleInv (initDemoState ctxA) ∧
    rotateHandler^[2 * 1] (initDemoState ctxA) = initDemoState ctxA := by
  have h := toggle_state_invariant ctxA rfl (initDemoState ctxA)
    ⟨[], fun g hg => absurd hg (List.not_mem_nil g), rfl⟩
  exact ⟨h.1, h.2 rotateHandler (List.mem_cons_self _ _) 1⟩
/-- Witness for C2 at a concrete loader, app and context. -/
theorem only_skybox_fatal_witness :
    exceptIsErr (skyboxInit loadA appA) =
      skyboxTextures.any (fun p => exceptIsErr (loadA (appA.dirData ++ "/images/" ++ p))) ∧
    (Event.addProgram "progGSDemo" "shaderGSDemoVertex" "shaderGSDemoFrag"
        "shaderGSDemoGeometry").isFatal = false := by
  have h := only_skybox_fatal loadA appA shaderGeometryZero ctxA
  refine ⟨h.1, h.2 (Event.addProgram "progGSDemo" "shaderGSDemoVertex" "shaderGSDemoFrag"
    "shaderGSDemoGeometry") ?_⟩
  decide
